import Mathlib

/-!
Verification of the two-state thermodynamic calculator
(`ThermoStateCalc_TwoStates_app.py`).

The GUI driver in `src/` is embedded shallowly: Python floats are modelled
as rationals together with explicit non-finite values (`inf`, `-inf`,
`nan`), the observable result of the builtin `float(text)` parse is
modelled by `FieldText`, and each handler method becomes a pure Lean
function over an explicit input record.  The companion module
`ThermoStateCalc_app.py` (classes `thermoState` and `UC`) is not part of
the repository snapshot; the parts of it that the claims depend on are
modelled from the specification and carry a `Modelled from the spec:`
marker in their doc comments.
-/

/-- A Python float as observed by this program: a finite double (modelled
as a rational) or one of the non-finite IEEE values. -/
inductive PyFloat where
  | finite (q : ℚ)
  | inf
  | neginf
  | nan
deriving DecidableEq

/-- Whether a Python float is finite. -/
def PyFloat.isFinite : PyFloat → Bool
  | .finite _ => true
  | _ => false

/-- The observable effect of applying the Python builtin `float` to the
text of a line edit: either the parse succeeds with some `PyFloat`
(note that the texts `inf`, `-inf` and `nan` parse successfully in
Python), or it raises `ValueError`. -/
inductive FieldText where
  | numeric (v : PyFloat)
  | nonNumeric
deriving DecidableEq

/-- The builtin `float(text)` as an `Option`: `none` models the raised
`ValueError`. -/
def parseFloat : FieldText → Option PyFloat
  | .numeric v => some v
  | .nonNumeric => none

/-- The `try: val = float(text) except: val = 0.0` idiom of
`updatePropertyUnits` (lines 114-117). -/
def parsedOr0 : FieldText → PyFloat
  | .numeric v => v
  | .nonNumeric => .finite 0

/-- Multiplication of a Python float by a finite rational constant,
following IEEE semantics on the non-finite values. -/
def PyFloat.scale (v : PyFloat) (c : ℚ) : PyFloat :=
  match v with
  | .finite q => .finite (q * c)
  | .inf => if 0 < c then .inf else if c < 0 then .neginf else .nan
  | .neginf => if 0 < c then .neginf else if c < 0 then .inf else .nan
  | .nan => .nan

/-- Rounding to three decimal places, the model of the `"{:0.3f}"`
format used throughout the GUI for display. -/
def round3 (q : ℚ) : ℚ := (round (q * 1000) : ℤ) / 1000

/-- The text written back into a line edit by
`lineEdit.setText("{:0.3f}".format(val))`: a three-decimal numeral for a
finite value, or Python prints of the non-finite values (`"{:0.3f}".format`
yields `inf` / `-inf` / `nan` for those, with no decimal places). -/
inductive Formatted where
  | num (q : ℚ)
  | infStr
  | neginfStr
  | nanStr
deriving DecidableEq

/-- The format call `"{:0.3f}".format(val)` as a function on modelled
Python floats. -/
def format3 : PyFloat → Formatted
  | .finite q => .num (round3 q)
  | .inf => .infStr
  | .neginf => .neginfStr
  | .nan => .nanStr

/-- Whether the written text is a three-decimal numeral (as opposed to the
`inf` / `nan` prints). -/
def Formatted.isNumeral : Formatted → Bool
  | .num _ => true
  | _ => false

namespace UC

/-- Modelled from the spec: the `UC` unit-converter class lives in
`ThermoStateCalc_app.py`, which is absent from the repository snapshot;
only its constant and function names are visible in the GUI driver.
Spec section 4.1: pressure converts bar to psi by a single linear scale
factor, and all conversions are exact inverses of each other. -/
def bar_to_psi : ℚ := 145037738 / 10000000

/-- Modelled from the spec: inverse pressure scale factor (psi to bar). -/
def psi_to_bar : ℚ := 1 / bar_to_psi

/-- Modelled from the spec: temperature conversion `F = C*9/5+32`. -/
def C_to_F (c : ℚ) : ℚ := c * 9 / 5 + 32

/-- Modelled from the spec: inverse temperature conversion. -/
def F_to_C (f : ℚ) : ℚ := (f - 32) * 5 / 9

/-- Modelled from the spec: specific energy/enthalpy scale factor,
kJ/kg to btu/lb. -/
def kJperkg_to_btuperlb : ℚ := 429923 / 1000000

/-- Modelled from the spec: inverse energy scale factor. -/
def btuperlb_to_kJperkg : ℚ := 1 / kJperkg_to_btuperlb

/-- Modelled from the spec: specific entropy scale factor. -/
def kJperkgc_to_btuperlbF : ℚ := 238846 / 1000000

/-- Modelled from the spec: inverse entropy scale factor. -/
def btuperlbF_to_kJperkgC : ℚ := 1 / kJperkgc_to_btuperlbF

/-- Modelled from the spec: specific volume scale factor. -/
def m3perkg_to_ft3perlb : ℚ := 16018463 / 1000000

/-- Modelled from the spec: inverse volume scale factor. -/
def ft3perlb_to_m3perkg : ℚ := 1 / m3perkg_to_ft3perlb

end UC

/-- Conversion `UC.F_to_C` lifted to Python floats (affine maps with positive slope
fix the non-finite values). -/
def PyFloat.fToC : PyFloat → PyFloat
  | .finite q => .finite (UC.F_to_C q)
  | .inf => .inf
  | .neginf => .neginf
  | .nan => .nan

/-- Conversion `UC.C_to_F` lifted to Python floats. -/
def PyFloat.cToF : PyFloat → PyFloat
  | .finite q => .finite (UC.C_to_F q)
  | .inf => .inf
  | .neginf => .neginf
  | .nan => .nan

/-- Whether `pat` occurs at the front of `s` (character lists). -/
def charsPre : List Char → List Char → Bool
  | [], _ => true
  | _ :: _, [] => false
  | a :: as, b :: bs => a = b && charsPre as bs

/-- The Python containment test `pat in s` on strings, as character
lists: `pat` occurs contiguously somewhere in `s`. -/
def charsSub (pat : List Char) : List Char → Bool
  | [] => charsPre pat []
  | c :: rest => charsPre pat (c :: rest) || charsSub pat rest

/-- The Python slice `s[-2:-1]`: with clamping semantics this is the
single penultimate character for strings of length at least two and the
empty string otherwise.  Natural-number truncated subtraction matches
the clamping of negative indices at zero. -/
def pySliceM2M1 (s : List Char) : List Char :=
  (s.drop (s.length - 2)).take (s.length - 1 - (s.length - 2))

/-- The property identifier extracted from a combo-box label by
`currentText()[-2:-1].lower()` (lines 155-156 and 165-166). -/
def extractID (s : List Char) : List Char :=
  (pySliceM2M1 s).map Char.toLower

/-- The thermodynamic region of a resolved state. -/
inductive Region where
  | subcooledLiquid
  | saturated
  | twoPhase
  | superheatedVapor
deriving DecidableEq

/-- Saturation-boundary specific properties returned by the backend:
internal energy, enthalpy, entropy, specific volume. -/
structure SatProps where
  u : ℚ
  h : ℚ
  s : ℚ
  v : ℚ
deriving DecidableEq

/-- Full property set returned by the backend for a single-phase lookup
at known pressure and temperature, including the quality sentinel. -/
structure FullProps where
  u : ℚ
  h : ℚ
  s : ℚ
  v : ℚ
  x : ℚ
deriving DecidableEq

/-- A single-phase inversion result when pressure was given: the backend
recovers the temperature and the remaining specific properties. -/
structure InvByP where
  t : ℚ
  u : ℚ
  h : ℚ
  s : ℚ
  v : ℚ
deriving DecidableEq

/-- A single-phase inversion result when temperature was given. -/
structure InvByT where
  p : ℚ
  u : ℚ
  h : ℚ
  s : ℚ
  v : ℚ
deriving DecidableEq

/-- A fully resolved thermodynamic state, mirroring the attributes of
the `thermoState` class: pressure, temperature, internal energy,
enthalpy, entropy, specific volume, quality, and region. -/
structure ThermoState where
  p : ℚ
  t : ℚ
  u : ℚ
  h : ℚ
  s : ℚ
  v : ℚ
  x : ℚ
  region : Region
deriving DecidableEq

/-- Modelled from the spec: the external steam-property backend (the
`pyXSteam` library, an external collaborator operating in one canonical
unit system, taken to be SI).  Spec section 6 requires saturation
properties by pressure and by temperature, properties by (p, T), and
inversions for the other supported pairs; `tolSat` is the saturation
comparison tolerance of the region classifier. -/
structure Backend where
  tsat : ℚ → ℚ
  psat : ℚ → ℚ
  tolSat : ℚ
  satLiqByP : ℚ → SatProps
  satVapByP : ℚ → SatProps
  satLiqByT : ℚ → SatProps
  satVapByT : ℚ → SatProps
  propsPT : ℚ → ℚ → Region → FullProps
  invertByP : List Char → ℚ → ℚ → Region → Option InvByP
  invertByT : List Char → ℚ → ℚ → Region → Option InvByT

/-- The single-character identifier for pressure produced by
`extractID` on a label ending in `(p)`. -/
def idP : List Char := ['p']

/-- Identifier for temperature. -/
def idT : List Char := ['t']

/-- Identifier for internal energy. -/
def idU : List Char := ['u']

/-- Identifier for enthalpy. -/
def idH : List Char := ['h']

/-- Identifier for entropy. -/
def idS : List Char := ['s']

/-- Identifier for specific volume. -/
def idV : List Char := ['v']

/-- Identifier for quality. -/
def idX : List Char := ['x']

/-- The error taxonomy of spec section 7.  In the GUI driver all of
these surface through the generic `except` handler as a warning whose
text names the error. -/
inductive ResolveError where
  | invalidInputErr
  | duplicatePropertyErr
  | unsupportedPropertyPair (c1 c2 : List Char)
  | propertyResolution (c1 c2 : List Char) (v1 v2 : ℚ)
deriving DecidableEq

/-- Modelled from the spec: normalisation of an input value into the
backend canonical (SI) unit system according to the property it
quantifies (spec section 4.2, resolution step 1). -/
def toSIval (c : List Char) (SI : Bool) (q : ℚ) : ℚ :=
  if SI then q
  else if c = idP then q * UC.psi_to_bar
  else if c = idT then UC.F_to_C q
  else if c = idU ∨ c = idH then q * UC.btuperlb_to_kJperkg
  else if c = idS then q * UC.btuperlbF_to_kJperkgC
  else if c = idV then q * UC.ft3perlb_to_m3perkg
  else q

/-- Modelled from the spec: conversion of a resolved SI state back into
the caller's unit system when that differs from the canonical one (spec
section 4.2, resolution step 3).  The region and the dimensionless
quality are unaffected. -/
def fromSIState (SI : Bool) (st : ThermoState) : ThermoState :=
  if SI then st
  else
    { p := st.p * UC.bar_to_psi
      t := UC.C_to_F st.t
      u := st.u * UC.kJperkg_to_btuperlb
      h := st.h * UC.kJperkg_to_btuperlb
      s := st.s * UC.kJperkgc_to_btuperlbF
      v := st.v * UC.m3perkg_to_ft3perlb
      x := st.x
      region := st.region }

/-- Modelled from the spec: the {Pressure, Temperature} strategy.  The
saturation temperature at the given pressure classifies the region:
within tolerance of it the state is the saturated boundary, below it
sub-cooled liquid, above it super-heated vapor; the backend then
supplies the remaining properties at (p, T) in that region. -/
def resPT (B : Backend) (p t : ℚ) : Except ResolveError ThermoState :=
  let ts := B.tsat p
  let region : Region :=
    if abs (t - ts) ≤ B.tolSat then .saturated
    else if t < ts then .subcooledLiquid
    else .superheatedVapor
  let pr := B.propsPT p t region
  .ok { p := p, t := t, u := pr.u, h := pr.h, s := pr.s, v := pr.v,
        x := pr.x, region := region }

/-- Linear interpolation between the saturated-liquid and
saturated-vapor values weighted by quality (spec section 4.2). -/
def lerpQ (fL fV x : ℚ) : ℚ := fL + x * (fV - fL)

/-- Modelled from the spec: the {Pressure, Quality} strategy.  The state
lies inside or on the two-phase dome; properties interpolate linearly
between the saturation bounds at the given pressure, the region is
saturated exactly at quality 0 or 1 and two-phase strictly between, and
a quality outside [0, 1] is a resolution failure. -/
def resPX (B : Backend) (p x : ℚ) : Except ResolveError ThermoState :=
  if x < 0 ∨ 1 < x then .error (.propertyResolution idP idX p x)
  else
    let L := B.satLiqByP p
    let V := B.satVapByP p
    let region : Region := if x = 0 ∨ x = 1 then .saturated else .twoPhase
    .ok { p := p, t := B.tsat p,
          u := lerpQ L.u V.u x, h := lerpQ L.h V.h x,
          s := lerpQ L.s V.s x, v := lerpQ L.v V.v x,
          x := x, region := region }

/-- Modelled from the spec: the {Temperature, Quality} strategy,
symmetric to `resPX` via the saturation pressure at the given
temperature. -/
def resTX (B : Backend) (t x : ℚ) : Except ResolveError ThermoState :=
  if x < 0 ∨ 1 < x then .error (.propertyResolution idT idX t x)
  else
    let L := B.satLiqByT t
    let V := B.satVapByT t
    let region : Region := if x = 0 ∨ x = 1 then .saturated else .twoPhase
    .ok { p := B.psat t, t := t,
          u := lerpQ L.u V.u x, h := lerpQ L.h V.h x,
          s := lerpQ L.s V.s x, v := lerpQ L.v V.v x,
          x := x, region := region }

/-- Field selection on saturation properties by identifier (enthalpy,
entropy or specific volume). -/
def SatProps.field (pr : SatProps) (c : List Char) : ℚ :=
  if c = idH then pr.h else if c = idS then pr.s else pr.v

/-- Modelled from the spec: the {Pressure, other} strategy for the other
property being enthalpy, entropy or specific volume.  The given value is
compared with its saturated-liquid and saturated-vapor bounds at the
given pressure: below the liquid bound is sub-cooled liquid and above
the vapor bound super-heated vapor (both via a backend inversion, whose
failure is a `PropertyResolutionError`); between the bounds the quality
is back-computed by linear interpolation. -/
def resPF (B : Backend) (c : List Char) (p f : ℚ) : Except ResolveError ThermoState :=
  let L := B.satLiqByP p
  let V := B.satVapByP p
  let fL := L.field c
  let fV := V.field c
  if f < fL then
    match B.invertByP c p f .subcooledLiquid with
    | some r => .ok { p := p, t := r.t, u := r.u, h := r.h, s := r.s,
                      v := r.v, x := -1, region := .subcooledLiquid }
    | none => .error (.propertyResolution idP c p f)
  else if fV < f then
    match B.invertByP c p f .superheatedVapor with
    | some r => .ok { p := p, t := r.t, u := r.u, h := r.h, s := r.s,
                      v := r.v, x := -1, region := .superheatedVapor }
    | none => .error (.propertyResolution idP c p f)
  else
    let x := (f - fL) / (fV - fL)
    let region : Region := if x = 0 ∨ x = 1 then .saturated else .twoPhase
    .ok { p := p, t := B.tsat p,
          u := lerpQ L.u V.u x, h := lerpQ L.h V.h x,
          s := lerpQ L.s V.s x, v := lerpQ L.v V.v x,
          x := x, region := region }

/-- Modelled from the spec: the {Temperature, other} strategy, symmetric
to `resPF` with the saturation bounds taken at the given temperature. -/
def resTF (B : Backend) (c : List Char) (t f : ℚ) : Except ResolveError ThermoState :=
  let L := B.satLiqByT t
  let V := B.satVapByT t
  let fL := L.field c
  let fV := V.field c
  if f < fL then
    match B.invertByT c t f .subcooledLiquid with
    | some r => .ok { p := r.p, t := t, u := r.u, h := r.h, s := r.s,
                      v := r.v, x := -1, region := .subcooledLiquid }
    | none => .error (.propertyResolution idT c t f)
  else if fV < f then
    match B.invertByT c t f .superheatedVapor with
    | some r => .ok { p := r.p, t := t, u := r.u, h := r.h, s := r.s,
                      v := r.v, x := -1, region := .superheatedVapor }
    | none => .error (.propertyResolution idT c t f)
  else
    let x := (f - fL) / (fV - fL)
    let region : Region := if x = 0 ∨ x = 1 then .saturated else .twoPhase
    .ok { p := B.psat t, t := t,
          u := lerpQ L.u V.u x, h := lerpQ L.h V.h x,
          s := lerpQ L.s V.s x, v := lerpQ L.v V.v x,
          x := x, region := region }

/-- The unordered property pairs the resolution dispatch implements
(spec section 4.2, step 2): {Pressure, Temperature}, Quality paired with
Pressure or Temperature, and Pressure or Temperature paired with
enthalpy, entropy or specific volume.  Every other combination is
unhandled. -/
def handledPair (c1 c2 : List Char) : Prop :=
  (c1 = idP ∧ c2 = idT) ∨ (c1 = idT ∧ c2 = idP) ∨
  (c1 = idP ∧ c2 = idX) ∨ (c1 = idX ∧ c2 = idP) ∨
  (c1 = idT ∧ c2 = idX) ∨ (c1 = idX ∧ c2 = idT) ∨
  (c1 = idP ∧ (c2 = idH ∨ c2 = idS ∨ c2 = idV)) ∨
  (c2 = idP ∧ (c1 = idH ∨ c1 = idS ∨ c1 = idV)) ∨
  (c1 = idT ∧ (c2 = idH ∨ c2 = idS ∨ c2 = idV)) ∨
  (c2 = idT ∧ (c1 = idH ∨ c1 = idS ∨ c1 = idV))

instance (c1 c2 : List Char) : Decidable (handledPair c1 c2) := by
  unfold handledPair
  exact inferInstance

/-- Modelled from the spec: dispatch on the unordered pair of property
identifiers (spec section 4.2, step 2), on values already normalised to
the backend canonical unit system.  Unhandled combinations are rejected
with `UnsupportedPropertyPairError` rather than guessed at (spec
section 9). -/
def resolvePair (B : Backend) (c1 c2 : List Char) (a1 a2 : ℚ) : Except ResolveError ThermoState :=
  if c1 = idP ∧ c2 = idT then resPT B a1 a2
  else if c1 = idT ∧ c2 = idP then resPT B a2 a1
  else if c1 = idP ∧ c2 = idX then resPX B a1 a2
  else if c1 = idX ∧ c2 = idP then resPX B a2 a1
  else if c1 = idT ∧ c2 = idX then resTX B a1 a2
  else if c1 = idX ∧ c2 = idT then resTX B a2 a1
  else if c1 = idP ∧ (c2 = idH ∨ c2 = idS ∨ c2 = idV) then resPF B c2 a1 a2
  else if c2 = idP ∧ (c1 = idH ∨ c1 = idS ∨ c1 = idV) then resPF B c1 a2 a1
  else if c1 = idT ∧ (c2 = idH ∨ c2 = idS ∨ c2 = idV) then resTF B c2 a1 a2
  else if c2 = idT ∧ (c1 = idH ∨ c1 = idS ∨ c1 = idV) then resTF B c1 a2 a1
  else .error (.unsupportedPropertyPair c1 c2)

/-- Modelled from the spec: `thermoState.setState` of the absent module
`ThermoStateCalc_app.py`.  Spec section 4.2: the two identifiers must be
distinct (else `DuplicatePropertyError`) and the two values finite (else
`InvalidInputError`); then the values are normalised to the canonical
unit system, the pair is dispatched to a resolution strategy, and the
resolved state is converted back to the caller's unit system. -/
def setState (B : Backend) (c1 c2 : List Char) (v1 v2 : PyFloat) (SI : Bool) :
    Except ResolveError ThermoState :=
  if c1 = c2 then .error .duplicatePropertyErr
  else
    match v1, v2 with
    | .finite q1, .finite q2 =>
      match resolvePair B c1 c2 (toSIval c1 SI q1) (toSIval c2 SI q2) with
      | .ok st => .ok (fromSIState SI st)
      | .error e => .error e
    | _, _ => .error .invalidInputErr

/-- The seven property changes displayed by `makeDeltaLabel`
(lines 232-239), each shown with the `"{:0.3f}"` format. -/
structure Deltas where
  p : ℚ
  t : ℚ
  u : ℚ
  h : ℚ
  s : ℚ
  v : ℚ
  x : ℚ
deriving DecidableEq

/-- Method `makeDeltaLabel` (lines 221-240): each displayed change is the
difference `state2.field - state1.field`, rounded only by the
three-decimal display format. -/
def makeDeltaLabel (state1 state2 : ThermoState) : Deltas :=
  { p := round3 (state2.p - state1.p)
    t := round3 (state2.t - state1.t)
    u := round3 (state2.u - state1.u)
    h := round3 (state2.h - state1.h)
    s := round3 (state2.s - state1.s)
    v := round3 (state2.v - state1.v)
    x := round3 (state2.x - state1.x) }

/-- The content of a per-state result label produced by `makeLabel`
(lines 193-219): the region together with the seven properties as
displayed with the `"{:.3f}"` format. -/
structure StateDisplay where
  region : Region
  p : ℚ
  t : ℚ
  u : ℚ
  h : ℚ
  s : ℚ
  v : ℚ
  x : ℚ
deriving DecidableEq

/-- Method `makeLabel` (lines 193-219). -/
def makeLabel (state : ThermoState) : StateDisplay :=
  { region := state.region
    p := round3 state.p
    t := round3 state.t
    u := round3 state.u
    h := round3 state.h
    s := round3 state.s
    v := round3 state.v
    x := round3 state.x }

/-- Which of the two states a warning message refers to. -/
inductive StateId where
  | one
  | two
deriving DecidableEq

/-- The outcome of one click of the Calculate button, one constructor
per exit path of `calculateProperties` (lines 148-191):
the two duplicate-property early returns, the `except ValueError`
handler, the generic `except Exception` handler with the error raised in
`setState`, and the success path. -/
inductive CalcOutcome where
  | duplicateProperty (st : StateId)
  | invalidValue
  | resolutionError (st : StateId) (e : ResolveError)
  | success (s1 s2 : ThermoState) (d : Deltas)
deriving DecidableEq

/-- The inputs read by `calculateProperties`: the four combo-box label
texts, the four line-edit texts, and the SI radio button. -/
structure CalcInputs where
  cmb_State1_Property1 : List Char
  cmb_State1_Property2 : List Char
  cmb_State2_Property1 : List Char
  cmb_State2_Property2 : List Char
  le_State1_Property1 : FieldText
  le_State1_Property2 : FieldText
  le_State2_Property1 : FieldText
  le_State2_Property2 : FieldText
  rdo_SI : Bool
deriving DecidableEq

/-- Method `calculateProperties` (lines 148-191), following the source order
exactly: the state-1 identifiers are extracted and compared, the state-1
values parsed, then the state-2 identifiers compared and values parsed,
and only then are the two states constructed and resolved in turn.  A
`ValueError` from any of the four `float` parses lands in the dedicated
handler; an error raised while resolving a state lands in the generic
handler, identified here by which `setState` call produced it. -/
def calculateProperties (B : Backend) (I : CalcInputs) : CalcOutcome :=
  let sp1a := extractID I.cmb_State1_Property1
  let sp1b := extractID I.cmb_State1_Property2
  if sp1a = sp1b then .duplicateProperty .one
  else
    match parseFloat I.le_State1_Property1, parseFloat I.le_State1_Property2 with
    | some f1a, some f1b =>
      let sp2a := extractID I.cmb_State2_Property1
      let sp2b := extractID I.cmb_State2_Property2
      if sp2a = sp2b then .duplicateProperty .two
      else
        match parseFloat I.le_State2_Property1, parseFloat I.le_State2_Property2 with
        | some f2a, some f2b =>
          match setState B sp1a sp1b f1a f1b I.rdo_SI with
          | .error e => .resolutionError .one e
          | .ok st1 =>
            match setState B sp2a sp2b f2a f2b I.rdo_SI with
            | .error e => .resolutionError .two e
            | .ok st2 => .success st1 st2 (makeDeltaLabel st1 st2)
        | _, _ => .invalidValue
    | _, _ => .invalidValue

/-- Whether the `thermoState` object for state 1 was constructed during
the run (line 176 was reached): true exactly on the outcomes of the code
paths that executed `self.state1 = thermoState()`. -/
def state1Constructed : CalcOutcome → Bool
  | .duplicateProperty _ => false
  | .invalidValue => false
  | .resolutionError _ _ => true
  | .success _ _ _ => true

/-- Whether the `thermoState` object for state 2 was constructed during
the run (line 179 was reached). -/
def state2Constructed : CalcOutcome → Bool
  | .resolutionError .two _ => true
  | .success _ _ _ => true
  | _ => false

/-- Whether the run completed the success path. -/
def CalcOutcome.isSuccess : CalcOutcome → Bool
  | .success _ _ _ => true
  | _ => false

/-- The warning shown for a duplicate property in state 1 (line 159). -/
def warnDup1 : String := "Warning: You cannot specify the same property twice for State 1."

/-- The warning shown for a duplicate property in state 2 (line 169). -/
def warnDup2 : String := "Warning: You cannot specify the same property twice for State 2."

/-- The warning shown by the `except ValueError` handler (line 189). -/
def warnValue : String := "Error: Please enter valid numerical values."

/-- The text of a resolution error as rendered into the generic
`Unexpected error` warning; the model keeps one fixed message per error
kind. -/
def errText : ResolveError → String
  | .invalidInputErr => "invalid input value"
  | .duplicatePropertyErr => "duplicate property"
  | .unsupportedPropertyPair _ _ => "unsupported property pair"
  | .propertyResolution _ _ _ _ => "property resolution failed"

/-- The updates `calculateProperties` applies to the result widgets: for
each of the three result labels either `none` (the widget was not
touched, its previous content remains) or the new content, plus the
warning text, which is written on every path (the empty string on
success, line 186). -/
structure GuiEffect where
  lbl_State1_Properties : Option StateDisplay
  lbl_State2_Properties : Option StateDisplay
  lbl_StateChange_Properties : Option Deltas
  lbl_Warning : String
deriving DecidableEq

/-- The widget updates performed on each exit path of
`calculateProperties`: the three result labels are written only on the
success path (lines 183-185), every other path writes only the warning
label. -/
def displayUpdates : CalcOutcome → GuiEffect
  | .duplicateProperty .one => ⟨none, none, none, warnDup1⟩
  | .duplicateProperty .two => ⟨none, none, none, warnDup2⟩
  | .invalidValue => ⟨none, none, none, warnValue⟩
  | .resolutionError _ e => ⟨none, none, none, "Unexpected error: " ++ errText e⟩
  | .success s1 s2 d => ⟨some (makeLabel s1), some (makeLabel s2), some d, ""⟩

/-- The pressure unit label set by `setUnits` (lines 81, 89). -/
def p_Units (SI : Bool) : String := if SI then "bar" else "psi"

/-- The temperature unit label (lines 82, 90). -/
def t_Units (SI : Bool) : String := if SI then "C" else "F"

/-- The internal-energy unit label (lines 83, 91). -/
def u_Units (SI : Bool) : String := if SI then "kJ/kg" else "btu/lb"

/-- The enthalpy unit label (lines 84, 92). -/
def h_Units (SI : Bool) : String := if SI then "kJ/kg" else "btu/lb"

/-- The entropy unit label (lines 85, 93). -/
def s_Units (SI : Bool) : String := if SI then "kJ/kg*C" else "btu/lb*F"

/-- The specific-volume unit label (lines 86, 94). -/
def v_Units (SI : Bool) : String := if SI then "m^3/kg" else "ft^3/lb"

/-- The value conversion branch of `updatePropertyUnits`
(lines 119-144): the chain of substring tests on the combo label, each
converting the value only when `UnitChange` holds, in the direction
selected by `SI`. -/
def convVal (prop : List Char) (UnitChange SI : Bool) (v : PyFloat) : PyFloat :=
  if charsSub ("Pressure").data prop then
    (if UnitChange then (if SI then v.scale UC.psi_to_bar else v.scale UC.bar_to_psi) else v)
  else if charsSub ("Temperature").data prop then
    (if UnitChange then (if SI then v.fToC else v.cToF) else v)
  else if charsSub ("Energy").data prop then
    (if UnitChange then (if SI then v.scale UC.btuperlb_to_kJperkg else v.scale UC.kJperkg_to_btuperlb) else v)
  else if charsSub ("Enthalpy").data prop then
    (if UnitChange then (if SI then v.scale UC.btuperlb_to_kJperkg else v.scale UC.kJperkg_to_btuperlb) else v)
  else if charsSub ("Entropy").data prop then
    (if UnitChange then (if SI then v.scale UC.btuperlbF_to_kJperkgC else v.scale UC.kJperkgc_to_btuperlbF) else v)
  else if charsSub ("Volume").data prop then
    (if UnitChange then (if SI then v.scale UC.ft3perlb_to_m3perkg else v.scale UC.m3perkg_to_ft3perlb) else v)
  else v

/-- The unit-label branch of `updatePropertyUnits`: `none` when no
substring test matches (the label widget is left untouched), and the
empty string for the unitless quality. -/
def labelFor (prop : List Char) (SI : Bool) : Option String :=
  if charsSub ("Pressure").data prop then some (p_Units SI)
  else if charsSub ("Temperature").data prop then some (t_Units SI)
  else if charsSub ("Energy").data prop then some (u_Units SI)
  else if charsSub ("Enthalpy").data prop then some (h_Units SI)
  else if charsSub ("Entropy").data prop then some (s_Units SI)
  else if charsSub ("Volume").data prop then some (v_Units SI)
  else if charsSub ("Quality").data prop then some ("")
  else none

/-- The result of one `updatePropertyUnits` call on one input field: the
unit-label update and the text written back into the line edit. -/
structure FieldUpdate where
  labelText : Option String
  written : Formatted
deriving DecidableEq

/-- Method `updatePropertyUnits` (lines 102-146): parse the field (an
unparseable text silently becomes `0.0`), update the unit label, convert
the value only when the unit system changed, and rewrite the field with
the `"{:0.3f}"` format of the resulting value. -/
def updatePropertyUnits (prop : List Char) (text : FieldText) (UnitChange SI : Bool) :
    FieldUpdate :=
  { labelText := labelFor prop SI
    written := format3 (convVal prop UnitChange SI (parsedOr0 text)) }

/-- A concrete backend instance with simple rational data, used to
evaluate the model on closed inputs. -/
def testBackend : Backend :=
  { tsat := fun p => 99 + p
    psat := fun t => t / 100
    tolSat := 1 / 100
    satLiqByP := fun p => ⟨p + 10, p + 11, p + 12, p + 13⟩
    satVapByP := fun p => ⟨p + 20, p + 21, p + 22, p + 23⟩
    satLiqByT := fun t => ⟨t + 10, t + 11, t + 12, t + 13⟩
    satVapByT := fun t => ⟨t + 20, t + 21, t + 22, t + 23⟩
    propsPT := fun _ t _ => ⟨t + 1, t + 2, t + 3, t + 4, -1⟩
    invertByP := fun _ p f _ => some ⟨p + f, f + 1, f + 2, f + 3, f + 4⟩
    invertByT := fun _ t f _ => some ⟨t + f, f + 1, f + 2, f + 3, f + 4⟩ }

/-- A label whose penultimate character is `p`. -/
def lblPressure : List Char := ("Pressure (p)").data

/-- A label whose penultimate character is `T`. -/
def lblTemperature : List Char := ("Temperature (T)").data

/-- A label whose penultimate character is `h`. -/
def lblEnthalpy : List Char := ("Enthalpy (h)").data

/-- A label whose penultimate character is `s`. -/
def lblEntropy : List Char := ("Entropy (s)").data

/-- A concrete well-formed input record: state 1 is (Pressure 1,
Temperature 25) and state 2 is (Pressure 2, Temperature 150), in SI. -/
def okInputs : CalcInputs :=
  { cmb_State1_Property1 := lblPressure
    cmb_State1_Property2 := lblTemperature
    cmb_State2_Property1 := lblPressure
    cmb_State2_Property2 := lblTemperature
    le_State1_Property1 := .numeric (.finite 1)
    le_State1_Property2 := .numeric (.finite 25)
    le_State2_Property1 := .numeric (.finite 2)
    le_State2_Property2 := .numeric (.finite 150)
    rdo_SI := true }

/-- Inputs whose state-1 combo boxes both select the pressure label,
while state 2 is perfectly well-formed and resolvable. -/
def dupOneInputs : CalcInputs :=
  { okInputs with cmb_State1_Property2 := lblPressure }

/-- Inputs whose state-2 combo boxes both select the pressure label,
while state 1 is well-formed. -/
def dupTwoInputs : CalcInputs :=
  { okInputs with cmb_State2_Property2 := lblPressure }

/-- Inputs whose first state-1 value field holds unparseable text. -/
def nonNumInputs : CalcInputs :=
  { okInputs with le_State1_Property1 := .nonNumeric }

/-- Inputs whose second state-1 value field holds the text `inf`, which
Python's `float` accepts as an infinite value. -/
def infInputs : CalcInputs :=
  { okInputs with le_State1_Property2 := .numeric .inf }

/-- Inputs selecting the {Enthalpy, Entropy} pair for state 1, a
combination the resolution dispatch does not implement. -/
def hsInputs : CalcInputs :=
  { okInputs with
    cmb_State1_Property1 := lblEnthalpy
    cmb_State1_Property2 := lblEntropy }

/-- Inputs whose two state-1 labels are different strings with the same
penultimate character up to case. -/
def coincideInputs : CalcInputs :=
  { okInputs with
    cmb_State1_Property1 := lblPressure
    cmb_State1_Property2 := ("Pascals (P)").data }

/-- Claim C4: for every supported quantity (pressure, temperature,
specific energy/enthalpy, specific entropy, specific volume) the SI and
English conversions are mutual inverses: both round trips return the
argument exactly, which is in particular within the claimed relative
tolerance of 1e-9.  The conversions are applied exactly as at the call
sites, by multiplication with the named scale factor or by the affine
temperature maps. -/
theorem c4_unit_conversions_roundtrip (x : ℚ) :
    (x * UC.bar_to_psi) * UC.psi_to_bar = x ∧
    (x * UC.psi_to_bar) * UC.bar_to_psi = x ∧
    UC.F_to_C (UC.C_to_F x) = x ∧
    UC.C_to_F (UC.F_to_C x) = x ∧
    (x * UC.kJperkg_to_btuperlb) * UC.btuperlb_to_kJperkg = x ∧
    (x * UC.btuperlb_to_kJperkg) * UC.kJperkg_to_btuperlb = x ∧
    (x * UC.kJperkgc_to_btuperlbF) * UC.btuperlbF_to_kJperkgC = x ∧
    (x * UC.btuperlbF_to_kJperkgC) * UC.kJperkgc_to_btuperlbF = x ∧
    (x * UC.m3perkg_to_ft3perlb) * UC.ft3perlb_to_m3perkg = x ∧
    (x * UC.ft3perlb_to_m3perkg) * UC.m3perkg_to_ft3perlb = x := by
  refine ⟨?_, ?_, ?_, ?_, ?_, ?_, ?_, ?_, ?_, ?_⟩ <;>
    · simp only [UC.bar_to_psi, UC.psi_to_bar, UC.C_to_F, UC.F_to_C,
        UC.kJperkg_to_btuperlb, UC.btuperlb_to_kJperkg,
        UC.kJperkgc_to_btuperlbF, UC.btuperlbF_to_kJperkgC,
        UC.m3perkg_to_ft3perlb, UC.ft3perlb_to_m3perkg]
      ring_nf

/-- Decidable equality for `Except` results, used to evaluate the model
on closed inputs. -/
instance {ε α : Type} [DecidableEq ε] [DecidableEq α] : DecidableEq (Except ε α) := fun x y =>
  match x, y with
  | .ok a, .ok b =>
    if h : a = b then isTrue (by rw [h])
    else isFalse (by intro hh; injection hh; contradiction)
  | .error a, .error b =>
    if h : a = b then isTrue (by rw [h])
    else isFalse (by intro hh; injection hh; contradiction)
  | .ok _, .error _ => isFalse (by intro hh; exact Except.noConfusion hh)
  | .error _, .ok _ => isFalse (by intro hh; exact Except.noConfusion hh)

/-- Claim C1: whenever the two property identifiers selected for a state
are equal, the run stops with the duplicate-property warning that names
that state (State 1 or State 2, two distinct messages), no `thermoState`
object is constructed for either state, and no resolution work is
performed before the failure is reported.  The state-2 case is stated
under the reachability conditions of the source (state 1 well-formed). -/
theorem c1_duplicate_property_rejected (B : Backend) (I : CalcInputs) :
    (extractID I.cmb_State1_Property1 = extractID I.cmb_State1_Property2 →
      calculateProperties B I = .duplicateProperty .one ∧
      state1Constructed (calculateProperties B I) = false ∧
      state2Constructed (calculateProperties B I) = false ∧
      (displayUpdates (calculateProperties B I)).lbl_Warning = warnDup1) ∧
    (extractID I.cmb_State1_Property1 ≠ extractID I.cmb_State1_Property2 →
      parseFloat I.le_State1_Property1 ≠ none →
      parseFloat I.le_State1_Property2 ≠ none →
      extractID I.cmb_State2_Property1 = extractID I.cmb_State2_Property2 →
      calculateProperties B I = .duplicateProperty .two ∧
      state1Constructed (calculateProperties B I) = false ∧
      state2Constructed (calculateProperties B I) = false ∧
      (displayUpdates (calculateProperties B I)).lbl_Warning = warnDup2) ∧
    warnDup1 ≠ warnDup2 := by
  refine ⟨?_, ?_, by decide⟩
  · intro h
    have ho : calculateProperties B I = .duplicateProperty .one := by
      simp only [calculateProperties, if_pos h]
    rw [ho]
    exact ⟨rfl, rfl, rfl, rfl⟩
  · intro h h1 h2 hdup
    obtain ⟨va, hva⟩ := Option.ne_none_iff_exists'.mp h1
    obtain ⟨vb, hvb⟩ := Option.ne_none_iff_exists'.mp h2
    have ho : calculateProperties B I = .duplicateProperty .two := by
      simp only [calculateProperties, if_neg h, hva, hvb, if_pos hdup]
    rw [ho]
    exact ⟨rfl, rfl, rfl, rfl⟩

/-- Witness for C1: both duplicate cases evaluated on concrete inputs. -/
theorem c1_witness :
    (calculateProperties testBackend dupOneInputs = .duplicateProperty .one ∧
      state1Constructed (calculateProperties testBackend dupOneInputs) = false ∧
      state2Constructed (calculateProperties testBackend dupOneInputs) = false ∧
      (displayUpdates (calculateProperties testBackend dupOneInputs)).lbl_Warning = warnDup1) ∧
    (calculateProperties testBackend dupTwoInputs = .duplicateProperty .two ∧
      state1Constructed (calculateProperties testBackend dupTwoInputs) = false ∧
      state2Constructed (calculateProperties testBackend dupTwoInputs) = false ∧
      (displayUpdates (calculateProperties testBackend dupTwoInputs)).lbl_Warning = warnDup2) :=
  ⟨(c1_duplicate_property_rejected testBackend dupOneInputs).1 (by decide),
   (c1_duplicate_property_rejected testBackend dupTwoInputs).2.1
     (by decide) (by decide) (by decide) (by decide)⟩

/-- On the success path the displayed deltas are exactly the record
built by `makeDeltaLabel` from the two resolved states. -/
lemma calc_success_inv (B : Backend) (I : CalcInputs) (s1 s2 : ThermoState)
    (d : Deltas) (h : calculateProperties B I = .success s1 s2 d) :
    d = makeDeltaLabel s1 s2 := by
  simp only [calculateProperties] at h
  repeat' split at h
  all_goals
    first
      | (exfalso; exact CalcOutcome.noConfusion h)
      | (injection h with h1 h2 h3; subst h1; subst h2; exact h3.symm)

/-- Claim C2: for every pair of successfully resolved states, each of
the seven displayed deltas is exactly `state2.field - state1.field` for
(p, T, u, h, s, v, x), with no transformation other than the
three-decimal display rounding, which is applied to the exact
difference. -/
theorem c2_delta_correctness (B : Backend) (I : CalcInputs) (s1 s2 : ThermoState)
    (d : Deltas) (h : calculateProperties B I = .success s1 s2 d) :
    d.p = round3 (s2.p - s1.p) ∧ d.t = round3 (s2.t - s1.t) ∧
    d.u = round3 (s2.u - s1.u) ∧ d.h = round3 (s2.h - s1.h) ∧
    d.s = round3 (s2.s - s1.s) ∧ d.v = round3 (s2.v - s1.v) ∧
    d.x = round3 (s2.x - s1.x) := by
  have hd := calc_success_inv B I s1 s2 d h
  subst hd
  exact ⟨rfl, rfl, rfl, rfl, rfl, rfl, rfl⟩

/-- Witness for C2: the deltas of a concrete successful run. -/
theorem c2_witness :
    (⟨1, 125, 125, 125, 125, 125, 0⟩ : Deltas).p = round3 ((2 : ℚ) - 1) ∧
    (⟨1, 125, 125, 125, 125, 125, 0⟩ : Deltas).t = round3 ((150 : ℚ) - 25) ∧
    (⟨1, 125, 125, 125, 125, 125, 0⟩ : Deltas).u = round3 ((151 : ℚ) - 26) ∧
    (⟨1, 125, 125, 125, 125, 125, 0⟩ : Deltas).h = round3 ((152 : ℚ) - 27) ∧
    (⟨1, 125, 125, 125, 125, 125, 0⟩ : Deltas).s = round3 ((153 : ℚ) - 28) ∧
    (⟨1, 125, 125, 125, 125, 125, 0⟩ : Deltas).v = round3 ((154 : ℚ) - 29) ∧
    (⟨1, 125, 125, 125, 125, 125, 0⟩ : Deltas).x = round3 ((-1 : ℚ) - -1) :=
  c2_delta_correctness testBackend okInputs
    ⟨1, 25, 26, 27, 28, 29, -1, .subcooledLiquid⟩
    ⟨2, 150, 151, 152, 153, 154, -1, .superheatedVapor⟩
    ⟨1, 125, 125, 125, 125, 125, 0⟩
    (by
      simp +decide only [calculateProperties, okInputs, lblPressure, lblTemperature,
        extractID, pySliceM2M1, setState, resolvePair, resPT, toSIval, fromSIState,
        parseFloat, makeDeltaLabel, round3, testBackend, idP, idT, idU, idH, idS, idV, idX]
      norm_num)

/-- Counterexample to C3: on inputs whose state 1 selects the same
property twice while state 2 is perfectly well-formed and resolvable,
the run stops at the state-1 duplicate check: no `thermoState` is
constructed for state 2 (its resolution is never attempted), even though
the very same state-2 request resolves successfully on its own. -/
theorem c3_counterexample :
    calculateProperties testBackend dupOneInputs = .duplicateProperty .one ∧
    state2Constructed (calculateProperties testBackend dupOneInputs) = false ∧
    setState testBackend (extractID dupOneInputs.cmb_State2_Property1)
        (extractID dupOneInputs.cmb_State2_Property2)
        (.finite 2) (.finite 150) dupOneInputs.rdo_SI =
      .ok ⟨2, 150, 151, 152, 153, 154, -1, .superheatedVapor⟩ := by
  refine ⟨by decide, by decide, ?_⟩
  simp +decide only [dupOneInputs, okInputs, lblPressure, lblTemperature,
    extractID, pySliceM2M1, setState, resolvePair, resPT, toSIval, fromSIState,
    testBackend, idP, idT, idU, idH, idS, idV, idX]
  norm_num

/-- Claim C3, amended: the two state requests are not independent — any
failure while handling state 1 (duplicate property selection, an
unparseable value, or an error raised during its resolution) aborts the
whole calculation before a `thermoState` is constructed for state 2, and
only the state-1 failure is reported. -/
theorem c3_state1_failure_aborts (B : Backend) (I : CalcInputs) :
    (extractID I.cmb_State1_Property1 = extractID I.cmb_State1_Property2 →
      calculateProperties B I = .duplicateProperty .one ∧
      state2Constructed (calculateProperties B I) = false) ∧
    (extractID I.cmb_State1_Property1 ≠ extractID I.cmb_State1_Property2 →
      (parseFloat I.le_State1_Property1 = none ∨ parseFloat I.le_State1_Property2 = none) →
      calculateProperties B I = .invalidValue ∧
      state2Constructed (calculateProperties B I) = false) ∧
    (∀ f1a f1b e,
      extractID I.cmb_State1_Property1 ≠ extractID I.cmb_State1_Property2 →
      parseFloat I.le_State1_Property1 = some f1a →
      parseFloat I.le_State1_Property2 = some f1b →
      extractID I.cmb_State2_Property1 ≠ extractID I.cmb_State2_Property2 →
      parseFloat I.le_State2_Property1 ≠ none →
      parseFloat I.le_State2_Property2 ≠ none →
      setState B (extractID I.cmb_State1_Property1) (extractID I.cmb_State1_Property2)
          f1a f1b I.rdo_SI = .error e →
      calculateProperties B I = .resolutionError .one e ∧
      state2Constructed (calculateProperties B I) = false) := by
  refine ⟨?_, ?_, ?_⟩
  · intro h
    have ho : calculateProperties B I = .duplicateProperty .one := by
      simp only [calculateProperties, if_pos h]
    exact ⟨ho, by rw [ho]; rfl⟩
  · intro h hn
    have ho : calculateProperties B I = .invalidValue := by
      rcases hn with hn | hn
      · simp only [calculateProperties, if_neg h, hn]
      · cases hpa : parseFloat I.le_State1_Property1 with
        | none => simp only [calculateProperties, if_neg h, hpa]
        | some va => simp only [calculateProperties, if_neg h, hpa, hn]
    exact ⟨ho, by rw [ho]; rfl⟩
  · intro f1a f1b e h hpa hpb h2 h2a h2b hss
    obtain ⟨va, hva⟩ := Option.ne_none_iff_exists'.mp h2a
    obtain ⟨vb, hvb⟩ := Option.ne_none_iff_exists'.mp h2b
    have ho : calculateProperties B I = .resolutionError .one e := by
      simp only [calculateProperties, if_neg h, hpa, hpb, if_neg h2, hva, hvb, hss]
    exact ⟨ho, by rw [ho]; rfl⟩

/-- Witness for C3: all three abort modes exercised on concrete inputs. -/
theorem c3_witness :
    (calculateProperties testBackend dupOneInputs = .duplicateProperty .one ∧
      state2Constructed (calculateProperties testBackend dupOneInputs) = false) ∧
    (calculateProperties testBackend nonNumInputs = .invalidValue ∧
      state2Constructed (calculateProperties testBackend nonNumInputs) = false) ∧
    (calculateProperties testBackend hsInputs =
        .resolutionError .one (.unsupportedPropertyPair idH idS) ∧
      state2Constructed (calculateProperties testBackend hsInputs) = false) :=
  ⟨(c3_state1_failure_aborts testBackend dupOneInputs).1 (by decide),
   (c3_state1_failure_aborts testBackend nonNumInputs).2.1 (by decide) (Or.inl (by decide)),
   (c3_state1_failure_aborts testBackend hsInputs).2.2
     (.finite 1) (.finite 25) (.unsupportedPropertyPair idH idS)
     (by decide) (by decide) (by decide) (by decide) (by decide) (by decide) (by decide)⟩

/-- Counterexample to C5: the text `inf` is accepted by Python's
`float`, so a request carrying a non-finite value does not fail before
resolution: all four parses succeed, a `thermoState` object is
constructed for state 1 and its resolution is attempted (the modelled
resolver then rejects the non-finite value), contradicting the claim
that no ThermoState is constructed for either state. -/
theorem c5_counterexample :
    parseFloat (FieldText.numeric PyFloat.inf) = some PyFloat.inf ∧
    calculateProperties testBackend infInputs =
      .resolutionError .one .invalidInputErr ∧
    state1Constructed (calculateProperties testBackend infInputs) = true := by
  refine ⟨rfl, by decide, by decide⟩

/-- Claim C5, amended: a non-numeric (unparseable) value makes the
request fail with the invalid-input warning before any resolution
attempt — no ThermoState is constructed for either state; but a
non-finite value (`inf` or `nan`, both accepted by the `float` parse)
passes the input checks, a ThermoState is constructed for state 1 and
resolution is attempted, which then fails inside the resolver. -/
theorem c5_invalid_input (B : Backend) (I : CalcInputs) :
    (extractID I.cmb_State1_Property1 ≠ extractID I.cmb_State1_Property2 →
      (parseFloat I.le_State1_Property1 = none ∨ parseFloat I.le_State1_Property2 = none) →
      calculateProperties B I = .invalidValue ∧
      state1Constructed (calculateProperties B I) = false ∧
      state2Constructed (calculateProperties B I) = false) ∧
    (∀ f1a f1b,
      extractID I.cmb_State1_Property1 ≠ extractID I.cmb_State1_Property2 →
      parseFloat I.le_State1_Property1 = some f1a →
      parseFloat I.le_State1_Property2 = some f1b →
      extractID I.cmb_State2_Property1 ≠ extractID I.cmb_State2_Property2 →
      (parseFloat I.le_State2_Property1 = none ∨ parseFloat I.le_State2_Property2 = none) →
      calculateProperties B I = .invalidValue ∧
      state1Constructed (calculateProperties B I) = false ∧
      state2Constructed (calculateProperties B I) = false) ∧
    (∀ f1a f1b,
      extractID I.cmb_State1_Property1 ≠ extractID I.cmb_State1_Property2 →
      parseFloat I.le_State1_Property1 = some f1a →
      parseFloat I.le_State1_Property2 = some f1b →
      extractID I.cmb_State2_Property1 ≠ extractID I.cmb_State2_Property2 →
      parseFloat I.le_State2_Property1 ≠ none →
      parseFloat I.le_State2_Property2 ≠ none →
      (f1a.isFinite = false ∨ f1b.isFinite = false) →
      calculateProperties B I = .resolutionError .one .invalidInputErr ∧
      state1Constructed (calculateProperties B I) = true) := by
  refine ⟨?_, ?_, ?_⟩
  · intro h hn
    have ho : calculateProperties B I = .invalidValue := by
      rcases hn with hn | hn
      · simp only [calculateProperties, if_neg h, hn]
      · cases hpa : parseFloat I.le_State1_Property1 with
        | none => simp only [calculateProperties, if_neg h, hpa]
        | some va => simp only [calculateProperties, if_neg h, hpa, hn]
    exact ⟨ho, by rw [ho]; rfl, by rw [ho]; rfl⟩
  · intro f1a f1b h hpa hpb h2 hn
    have ho : calculateProperties B I = .invalidValue := by
      rcases hn with hn | hn
      · simp only [calculateProperties, if_neg h, hpa, hpb, if_neg h2, hn]
      · cases hpc : parseFloat I.le_State2_Property1 with
        | none => simp only [calculateProperties, if_neg h, hpa, hpb, if_neg h2, hpc]
        | some vc => simp only [calculateProperties, if_neg h, hpa, hpb, if_neg h2, hpc, hn]
    exact ⟨ho, by rw [ho]; rfl, by rw [ho]; rfl⟩
  · intro f1a f1b h hpa hpb h2 h2a h2b hnf
    obtain ⟨va, hva⟩ := Option.ne_none_iff_exists'.mp h2a
    obtain ⟨vb, hvb⟩ := Option.ne_none_iff_exists'.mp h2b
    have hss : setState B (extractID I.cmb_State1_Property1)
        (extractID I.cmb_State1_Property2) f1a f1b I.rdo_SI =
        .error .invalidInputErr := by
      unfold setState
      rw [if_neg h]
      rcases hnf with hnf | hnf
      · cases f1a with
        | finite q => exact absurd hnf (by simp [PyFloat.isFinite])
        | inf => cases f1b <;> rfl
        | neginf => cases f1b <;> rfl
        | nan => cases f1b <;> rfl
      · cases f1b with
        | finite q => exact absurd hnf (by simp [PyFloat.isFinite])
        | inf => cases f1a <;> rfl
        | neginf => cases f1a <;> rfl
        | nan => cases f1a <;> rfl
    have ho : calculateProperties B I = .resolutionError .one .invalidInputErr := by
      simp only [calculateProperties, if_neg h, hpa, hpb, if_neg h2, hva, hvb, hss]
    exact ⟨ho, by rw [ho]; rfl⟩

/-- Witness for C5: the non-numeric abort and the non-finite
reach-the-resolver case, both on concrete inputs. -/
theorem c5_witness :
    (calculateProperties testBackend nonNumInputs = .invalidValue ∧
      state1Constructed (calculateProperties testBackend nonNumInputs) = false ∧
      state2Constructed (calculateProperties testBackend nonNumInputs) = false) ∧
    (calculateProperties testBackend infInputs =
        .resolutionError .one .invalidInputErr ∧
      state1Constructed (calculateProperties testBackend infInputs) = true) :=
  ⟨(c5_invalid_input testBackend nonNumInputs).1 (by decide) (Or.inl (by decide)),
   (c5_invalid_input testBackend infInputs).2.2 (.finite 1) .inf
     (by decide) (by decide) (by decide) (by decide) (by decide) (by decide)
     (Or.inr (by decide))⟩

/-- Converting a resolved state back to the caller's unit system leaves
the region unchanged. -/
lemma fromSIState_region (SI : Bool) (st : ThermoState) :
    (fromSIState SI st).region = st.region := by
  unfold fromSIState
  split <;> rfl

/-- The state built by the {Pressure, Temperature} strategy when the
region classifier lands on the saturated boundary. -/
def ptSatState (B : Backend) (a1 a2 : ℚ) : ThermoState :=
  { p := a1, t := a2,
    u := (B.propsPT a1 a2 .saturated).u,
    h := (B.propsPT a1 a2 .saturated).h,
    s := (B.propsPT a1 a2 .saturated).s,
    v := (B.propsPT a1 a2 .saturated).v,
    x := (B.propsPT a1 a2 .saturated).x,
    region := .saturated }

/-- Claim C6: for a {Pressure, Temperature} request (in either slot
order) whose temperature equals, within the backend tolerance, the
saturation temperature at the given pressure — both compared in the
backend canonical unit system — the resolved state's region is
`saturated`, and therefore neither `sub-cooled liquid` nor
`super-heated vapor`. -/
theorem c6_saturation_boundary (B : Backend) (SI : Bool) (p t : ℚ)
    (h : abs (toSIval idT SI t - B.tsat (toSIval idP SI p)) ≤ B.tolSat) :
    (∃ st, setState B idP idT (.finite p) (.finite t) SI = .ok st ∧
      st.region = .saturated ∧ st.region ≠ .subcooledLiquid ∧
      st.region ≠ .superheatedVapor) ∧
    (∃ st, setState B idT idP (.finite t) (.finite p) SI = .ok st ∧
      st.region = .saturated ∧ st.region ≠ .subcooledLiquid ∧
      st.region ≠ .superheatedVapor) := by
  have hres : resPT B (toSIval idP SI p) (toSIval idT SI t) =
      .ok (ptSatState B (toSIval idP SI p) (toSIval idT SI t)) := by
    simp only [resPT, ptSatState]
    rw [if_pos h]
  have hreg : (fromSIState SI
      (ptSatState B (toSIval idP SI p) (toSIval idT SI t))).region = .saturated := by
    rw [fromSIState_region]
    rfl
  constructor
  · refine ⟨fromSIState SI (ptSatState B (toSIval idP SI p) (toSIval idT SI t)),
      ?_, hreg, by rw [hreg]; decide, by rw [hreg]; decide⟩
    unfold setState
    rw [if_neg (by decide : ¬(idP = idT))]
    dsimp only
    unfold resolvePair
    rw [if_pos (⟨rfl, rfl⟩ : idP = idP ∧ idT = idT), hres]
  · refine ⟨fromSIState SI (ptSatState B (toSIval idP SI p) (toSIval idT SI t)),
      ?_, hreg, by rw [hreg]; decide, by rw [hreg]; decide⟩
    unfold setState
    rw [if_neg (by decide : ¬(idT = idP))]
    dsimp only
    unfold resolvePair
    rw [if_neg (by decide : ¬(idT = idP ∧ idP = idT)),
      if_pos (⟨rfl, rfl⟩ : idT = idT ∧ idP = idP), hres]

/-- Witness for C6: pressure 1 and temperature 100 in SI on the test
backend, whose saturation temperature at pressure 1 is exactly 100. -/
theorem c6_witness :
    (∃ st, setState testBackend idP idT (.finite 1) (.finite 100) true = .ok st ∧
      st.region = .saturated ∧ st.region ≠ .subcooledLiquid ∧
      st.region ≠ .superheatedVapor) ∧
    (∃ st, setState testBackend idT idP (.finite 100) (.finite 1) true = .ok st ∧
      st.region = .saturated ∧ st.region ≠ .subcooledLiquid ∧
      st.region ≠ .superheatedVapor) :=
  c6_saturation_boundary testBackend true 1 100
    (by
      simp only [toSIval, testBackend, if_pos rfl]
      norm_num)

/-- Claim C7: a property-pair combination the resolution dispatch does
not implement (for instance {Enthalpy, Entropy}) is rejected with
`UnsupportedPropertyPairError` carrying the offending pair, both at the
resolver and as the outcome surfaced to the caller — never routed to a
guessed strategy. -/
theorem c7_unsupported_pair (B : Backend) (c1 c2 : List Char) (q1 q2 : ℚ)
    (SI : Bool) (I : CalcInputs) (hne : c1 ≠ c2) (hun : ¬ handledPair c1 c2) :
    setState B c1 c2 (.finite q1) (.finite q2) SI =
      .error (.unsupportedPropertyPair c1 c2) ∧
    (extractID I.cmb_State1_Property1 = c1 →
      extractID I.cmb_State1_Property2 = c2 →
      parseFloat I.le_State1_Property1 = some (.finite q1) →
      parseFloat I.le_State1_Property2 = some (.finite q2) →
      extractID I.cmb_State2_Property1 ≠ extractID I.cmb_State2_Property2 →
      parseFloat I.le_State2_Property1 ≠ none →
      parseFloat I.le_State2_Property2 ≠ none →
      I.rdo_SI = SI →
      calculateProperties B I =
        .resolutionError .one (.unsupportedPropertyPair c1 c2)) := by
  have hrp : resolvePair B c1 c2 (toSIval c1 SI q1) (toSIval c2 SI q2) =
      .error (.unsupportedPropertyPair c1 c2) := by
    simp only [handledPair, not_or] at hun
    obtain ⟨h1, h2, h3, h4, h5, h6, h7, h8, h9, h10⟩ := hun
    simp only [resolvePair, if_neg h1, if_neg h2, if_neg h3, if_neg h4,
      if_neg h5, if_neg h6, if_neg h7, if_neg h8, if_neg h9, if_neg h10]
  have hss : setState B c1 c2 (.finite q1) (.finite q2) SI =
      .error (.unsupportedPropertyPair c1 c2) := by
    unfold setState
    rw [if_neg hne]
    dsimp only
    rw [hrp]
  refine ⟨hss, ?_⟩
  intro e1 e2 hpa hpb h2 h2a h2b hSI
  obtain ⟨va, hva⟩ := Option.ne_none_iff_exists'.mp h2a
  obtain ⟨vb, hvb⟩ := Option.ne_none_iff_exists'.mp h2b
  have hd : extractID I.cmb_State1_Property1 ≠ extractID I.cmb_State1_Property2 := by
    rw [e1, e2]
    exact hne
  simp only [calculateProperties, if_neg hd, hpa, hpb, if_neg h2, hva, hvb,
    e1, e2, hSI, hss]
  rw [if_neg hne]

/-- Witness for C7: the {Enthalpy, Entropy} pair on concrete inputs. -/
theorem c7_witness :
    setState testBackend idH idS (.finite 1) (.finite 25) true =
      .error (.unsupportedPropertyPair idH idS) ∧
    calculateProperties testBackend hsInputs =
      .resolutionError .one (.unsupportedPropertyPair idH idS) :=
  ⟨(c7_unsupported_pair testBackend idH idS 1 25 true hsInputs
      (by decide) (by decide)).1,
   (c7_unsupported_pair testBackend idH idS 1 25 true hsInputs
      (by decide) (by decide)).2
     (by decide) (by decide) (by decide) (by decide) (by decide)
     (by decide) (by decide) (by decide)⟩

/-- Claim C8: the property identifier a state passes to the resolver is
the lowercased penultimate character of the selected combo-box label
(for labels of length at least two), so any two labels whose penultimate
characters coincide up to case are treated as the same property, and the
duplicate-property check compares exactly these single characters. -/
theorem c8_identifier_extraction (B : Backend) (I : CalcInputs)
    (s : List Char) (hs : 2 ≤ s.length) :
    extractID s = [Char.toLower (s.get ⟨s.length - 2, by omega⟩)] ∧
    (∀ (h1 : 2 ≤ I.cmb_State1_Property1.length)
      (h2 : 2 ≤ I.cmb_State1_Property2.length),
      Char.toLower (I.cmb_State1_Property1.get
          ⟨I.cmb_State1_Property1.length - 2, by omega⟩) =
        Char.toLower (I.cmb_State1_Property2.get
          ⟨I.cmb_State1_Property2.length - 2, by omega⟩) →
      calculateProperties B I = .duplicateProperty .one) := by
  have key : ∀ (l : List Char) (hl : 2 ≤ l.length),
      extractID l = [Char.toLower (l.get ⟨l.length - 2, by omega⟩)] := by
    intro l hl
    have hlt : l.length - 2 < l.length := by omega
    have hone : l.length - 1 - (l.length - 2) = 1 := by omega
    unfold extractID pySliceM2M1
    rw [hone, List.take_one_drop_eq_of_lt_length hlt]
    rfl
  refine ⟨key s hs, ?_⟩
  intro h1 h2 heq
  have hdup : extractID I.cmb_State1_Property1 = extractID I.cmb_State1_Property2 := by
    rw [key _ h1, key _ h2, heq]
  simp only [calculateProperties, if_pos hdup]

/-- Witness for C8: the labels `Pressure (p)` and `Pascals (P)` differ
as strings but share the penultimate character up to case, so they are
treated as the same property and rejected as duplicates. -/
theorem c8_witness :
    extractID lblPressure = [Char.toLower 'p'] ∧
    calculateProperties testBackend coincideInputs = .duplicateProperty .one :=
  ⟨((c8_identifier_extraction testBackend coincideInputs lblPressure
      (by decide)).1).trans (by decide),
   (c8_identifier_extraction testBackend coincideInputs lblPressure
      (by decide)).2 (by decide) (by decide) (by decide)⟩

/-- When the unit system did not change, no value conversion is applied
in any branch of `updatePropertyUnits`. -/
lemma convVal_no_change (prop : List Char) (SI : Bool) (v : PyFloat) :
    convVal prop false SI v = v := by
  unfold convVal
  repeat' split
  all_goals first
    | rfl
    | (exfalso; simp_all)

/-- Every conversion branch maps a finite value to a finite value. -/
lemma convVal_isFinite (prop : List Char) (uc SI : Bool) (q : ℚ) :
    (convVal prop uc SI (.finite q)).isFinite = true := by
  unfold convVal
  repeat' split
  all_goals rfl

/-- Every conversion branch maps a finite value to a finite value,
existential form. -/
lemma convVal_finite (prop : List Char) (uc SI : Bool) (q : ℚ) :
    ∃ r : ℚ, convVal prop uc SI (.finite q) = .finite r := by
  have h := convVal_isFinite prop uc SI q
  cases hc : convVal prop uc SI (.finite q) with
  | finite r => exact ⟨r, rfl⟩
  | inf => rw [hc] at h; exact absurd h (by simp [PyFloat.isFinite])
  | neginf => rw [hc] at h; exact absurd h (by simp [PyFloat.isFinite])
  | nan => rw [hc] at h; exact absurd h (by simp [PyFloat.isFinite])

/-- Counterexample to C9: the field text `inf` parses as a float, the
converted value is still infinite, and the rewritten field text is
Python's `inf` — not a numeral with three decimal places as the claim
asserts for all cases. -/
theorem c9_counterexample :
    (updatePropertyUnits lblPressure (.numeric .inf) true true).written =
      .infStr ∧
    Formatted.isNumeral
      (updatePropertyUnits lblPressure (.numeric .inf) true true).written = false := by
  have hpos : (0 : ℚ) < UC.psi_to_bar := by
    norm_num [UC.psi_to_bar, UC.bar_to_psi]
  have h : (updatePropertyUnits lblPressure (.numeric .inf) true true).written =
      .infStr := by
    show format3 (convVal lblPressure true true .inf) = .infStr
    unfold convVal
    rw [if_pos (by decide : charsSub ("Pressure").data lblPressure = true)]
    show format3 (PyFloat.inf.scale UC.psi_to_bar) = .infStr
    unfold PyFloat.scale
    rw [if_pos hpos]
    rfl
  exact ⟨h, by rw [h]; rfl⟩

/-- Claim C9, amended: the unit-update operation never raises — an
unparseable field text is silently treated as `0.0` (the update behaves
exactly as if the field held `0`), the numeric conversion is applied
only when the unit system actually changed, and the field is rewritten
with the value formatted to exactly three decimal places whenever the
parsed value is finite; a non-finite parsed value (`inf` or `nan`, which
Python's `float` accepts) is rewritten as `inf`/`nan` text instead. -/
theorem c9_unit_update_total (prop : List Char) (text : FieldText) (uc SI : Bool) :
    updatePropertyUnits prop .nonNumeric uc SI =
      updatePropertyUnits prop (.numeric (.finite 0)) uc SI ∧
    (updatePropertyUnits prop text false SI).written = format3 (parsedOr0 text) ∧
    (∀ q : ℚ, ∃ r : ℚ,
      (updatePropertyUnits prop (.numeric (.finite q)) uc SI).written =
        .num (round3 r)) := by
  refine ⟨rfl, ?_, ?_⟩
  · unfold updatePropertyUnits
    rw [convVal_no_change]
  · intro q
    obtain ⟨r, hr⟩ := convVal_finite prop uc SI q
    refine ⟨r, ?_⟩
    unfold updatePropertyUnits
    dsimp only [parsedOr0]
    rw [hr]
    rfl

/-- Claim C10: the three result displays are written only when both
states resolve successfully, in which case all three receive new content
and the warning label is cleared; on every failing path none of the
three result displays is touched (their previous content remains) and
only the warning label is set, to a non-empty message. -/
theorem c10_display_gating (B : Backend) (I : CalcInputs) :
    (∀ s1 s2 d, calculateProperties B I = .success s1 s2 d →
      displayUpdates (calculateProperties B I) =
        ⟨some (makeLabel s1), some (makeLabel s2), some d, ""⟩) ∧
    ((calculateProperties B I).isSuccess = false →
      (displayUpdates (calculateProperties B I)).lbl_State1_Properties = none ∧
      (displayUpdates (calculateProperties B I)).lbl_State2_Properties = none ∧
      (displayUpdates (calculateProperties B I)).lbl_StateChange_Properties = none ∧
      (displayUpdates (calculateProperties B I)).lbl_Warning ≠ "") := by
  constructor
  · intro s1 s2 d h
    rw [h]
    rfl
  · intro h
    cases ho : calculateProperties B I with
    | duplicateProperty st =>
      cases st
      · exact ⟨rfl, rfl, rfl, by decide⟩
      · exact ⟨rfl, rfl, rfl, by decide⟩
    | invalidValue => exact ⟨rfl, rfl, rfl, by decide⟩
    | resolutionError st e =>
      refine ⟨rfl, rfl, rfl, ?_⟩
      cases st <;> cases e <;> (dsimp only [displayUpdates, errText]; decide)
    | success s1 s2 d =>
      rw [ho] at h
      exact absurd h (by simp [CalcOutcome.isSuccess])

/-- Witness for C10: a successful run updates all three displays and
clears the warning; a failing run touches none of them and sets a
non-empty warning. -/
theorem c10_witness :
    displayUpdates (calculateProperties testBackend okInputs) =
      ⟨some (makeLabel ⟨1, 25, 26, 27, 28, 29, -1, .subcooledLiquid⟩),
        some (makeLabel ⟨2, 150, 151, 152, 153, 154, -1, .superheatedVapor⟩),
        some ⟨1, 125, 125, 125, 125, 125, 0⟩, ""⟩ ∧
    ((displayUpdates (calculateProperties testBackend dupOneInputs)).lbl_State1_Properties = none ∧
      (displayUpdates (calculateProperties testBackend dupOneInputs)).lbl_State2_Properties = none ∧
      (displayUpdates (calculateProperties testBackend dupOneInputs)).lbl_StateChange_Properties = none ∧
      (displayUpdates (calculateProperties testBackend dupOneInputs)).lbl_Warning ≠ "") :=
  ⟨(c10_display_gating testBackend okInputs).1
      ⟨1, 25, 26, 27, 28, 29, -1, .subcooledLiquid⟩
      ⟨2, 150, 151, 152, 153, 154, -1, .superheatedVapor⟩
      ⟨1, 125, 125, 125, 125, 125, 0⟩
      (by
        simp +decide only [calculateProperties, okInputs, lblPressure, lblTemperature,
          extractID, pySliceM2M1, setState, resolvePair, resPT, toSIval, fromSIState,
          parseFloat, makeDeltaLabel, round3, testBackend, idP, idT, idU, idH, idS, idV, idX]
        norm_num),
   (c10_display_gating testBackend dupOneInputs).2 (by decide)⟩
